import Mathlib

/-!
Shallow embedding of `kulshankomkastkiller.py`, a connectivity watchdog that
monitors a modem and the internet and power-cycles the modem via a relay when
the internet stays down.

Modelling conventions:
* Timestamps and durations are integer seconds (`Nat`).  Every call to
  `datetime.now()` inside one method body is modelled as the single tick time
  `now` (poll granularity in the source is one second; the sub-second spread of
  the `datetime.now()` calls inside a body never influences a branch: the only
  place a just-updated `_last_curl` could make the delta negative is guarded by
  `not good_curl`).
* Python's `timedelta.seconds` attribute (the seconds component of the
  normalized timedelta, i.e. total seconds modulo 86400 for a non-negative
  delta) is modelled by `timedeltaSeconds`; it appears both in `is_up`'s
  grace-window test and in `power_cycle_modem`'s `_sleep`.  Full
  `timedelta < timedelta` comparisons (as in `is_currently_booting`) compare
  total durations.
* The network probes `can_ping` / `can_curl` are external I/O; their boolean
  results enter the model as oracle inputs (`alive`, `curl_results`).
* `time.sleep` and the GPIO relay calls are recorded in an `RelayAction` trace so
  that the order engage-relay / sleep / disengage-relay is observable.
-/

/-- Python's `timedelta.seconds` field: for a non-negative delta of `d` total
seconds this is `d` modulo 86400 (the seconds component, days stripped). -/
def timedeltaSeconds (d : Nat) : Nat := d % 86400

/-- The `Modem` class: tracker for the modem's LAN reachability plus the
reboot bookkeeping (`_last_reboot`, `_boot_duration`, `_power_off_duration`).
The `local_interface` / `lan_ip` constructor arguments only parameterize the
external `can_ping` probe and are not part of the decision state. -/
structure Modem where
  power_off_duration : Nat
  boot_duration : Nat
  up_since : Option Nat
  down_since : Option Nat
  last_reboot : Nat
deriving DecidableEq, Repr

/-- `Modem.__init__`: `_up_since = None`, `_down_since = None`,
`_last_reboot = datetime.now()` (construction time `now0`). -/
def Modem.init (power_off_duration boot_duration now0 : Nat) : Modem :=
  { power_off_duration := power_off_duration
    boot_duration := boot_duration
    up_since := none
    down_since := none
    last_reboot := now0 }

/-- `Modem.notify_reboot`: clear `_up_since`, set `_down_since` and
`_last_reboot` to now. -/
def Modem.notify_reboot (m : Modem) (now : Nat) : Modem :=
  { m with up_since := none, down_since := some now, last_reboot := now }

/-- `Modem.get_power_off_duration`. -/
def Modem.get_power_off_duration (m : Modem) : Nat := m.power_off_duration

/-- `Modem.is_currently_booting`: `(datetime.now() - self._last_reboot) < self._boot_duration`
(a full timedelta comparison, not a `.seconds` one). -/
def Modem.is_currently_booting (m : Modem) (now : Nat) : Bool :=
  decide (now - m.last_reboot < m.boot_duration)

/-- `Modem.is_responsive`: the plain tracker variant.  `alive` is the oracle
result of `can_ping`.  Returns the updated modem and the verdict
`self._up_since is not None`. -/
def Modem.is_responsive (m : Modem) (now : Nat) (alive : Bool) : Modem × Bool :=
  let m' :=
    if alive = false then
      { m with up_since := none, down_since := some now }
    else if m.up_since = none then
      { m with up_since := some now, down_since := none }
    else m
  (m', m'.up_since.isSome)

/-- The `InternetMonitor` class: grace-window tracker for internet
reachability.  `_last_curl` is the time of the last successful curl (or of
construction / the last reboot notification).  The remote host list and curl
parameters only parameterize the external `can_curl` probes. -/
structure InternetMonitor where
  acceptable_no_comms_seconds : Nat
  last_curl : Nat
  up_since : Option Nat
  down_since : Option Nat
deriving DecidableEq, Repr

/-- `InternetMonitor.__init__`: `_last_curl = datetime.now()` (construction
time `now0`), both interval marks `None`. -/
def InternetMonitor.init (acceptable now0 : Nat) : InternetMonitor :=
  { acceptable_no_comms_seconds := acceptable
    last_curl := now0
    up_since := none
    down_since := none }

/-- `InternetMonitor.notify_reboot`: `_last_curl = datetime.now()`. -/
def InternetMonitor.notify_reboot (im : InternetMonitor) (now : Nat) : InternetMonitor :=
  { im with last_curl := now }

/-- `InternetMonitor.is_up`: `curl_results` is the oracle list of `can_curl`
results, one per configured remote host.  A good sample refreshes
`_last_curl`; the down verdict requires a bad sample AND
`time_since_last_curl.seconds > acceptable_no_comms_seconds` (note the Python
`.seconds` component, modelled by `timedeltaSeconds`). -/
def InternetMonitor.is_up (im : InternetMonitor) (now : Nat) (curl_results : List Bool) :
    InternetMonitor × Bool :=
  let good_curl := curl_results.any id
  let im1 := if good_curl = true then { im with last_curl := now } else im
  let time_since_last_curl := now - im1.last_curl
  let im2 :=
    if good_curl = false ∧ timedeltaSeconds time_since_last_curl > im1.acceptable_no_comms_seconds then
      { im1 with up_since := none, down_since := some now }
    else if im1.up_since = none then
      { im1 with up_since := some now, down_since := none }
    else im1
  (im2, im2.up_since.isSome)

/-- The relay GPIO line (`gpiozero.OutputDevice` / the `fakeio` double):
constructed with `initial_value=False`, `active_high=True`. -/
structure OutputDevice where
  active_high : Bool
  value : Bool
deriving DecidableEq, Repr

/-- `OutputDevice.on`. -/
def OutputDevice.on (d : OutputDevice) : OutputDevice := { d with value := true }

/-- `OutputDevice.off`. -/
def OutputDevice.off (d : OutputDevice) : OutputDevice := { d with value := false }

/-- The `RaspberryPi` class holds the relay output (the modem and internet
monitor references are passed explicitly in this embedding). -/
structure RaspberryPi where
  relay_output : OutputDevice
deriving DecidableEq, Repr

/-- `RaspberryPi.__init__`: relay constructed with `initial_value=False`. -/
def RaspberryPi.init : RaspberryPi :=
  { relay_output := { active_high := true, value := false } }

/-- Externally visible side effects of a tick, in order of occurrence. -/
inductive RelayAction where
  | relay_on : RelayAction
  | sleep : Nat → RelayAction
  | relay_off : RelayAction
deriving DecidableEq, Repr

/-- `RaspberryPi.power_cycle_modem`: notify both trackers of the reboot, then
engage the relay, sleep, and disengage the relay.  The local helper
`_sleep(dt)` calls `time.sleep(dt.seconds)` — the seconds *component* of the
`power_off_duration` timedelta (`timedeltaSeconds`), not its total — so the
recorded blocking sleep is `power_off_duration` modulo 86400.  The relay
engagements and the sleep are recorded in the action trace; the returned
relay state is the final one (`off`, power restored). -/
def power_cycle_modem (m : Modem) (im : InternetMonitor) (pi : RaspberryPi) (now : Nat) :
    Modem × InternetMonitor × RaspberryPi × List RelayAction :=
  let m' := m.notify_reboot now
  let im' := im.notify_reboot now
  let r1 := pi.relay_output.on
  let r2 := r1.off
  (m', im', { pi with relay_output := r2 },
    [RelayAction.relay_on, RelayAction.sleep (timedeltaSeconds m'.get_power_off_duration),
      RelayAction.relay_off])

/-- The four states of `MonitoringStateMachine` (string constants in the
source). -/
inductive MState where
  | MONITORING_MODEM : MState
  | MONITORING_INTERNET : MState
  | REBOOT_MODEM : MState
  | HALT : MState
deriving DecidableEq, Repr

/-- The `MonitoringStateMachine` object state: current state, previous state
(for entered-state logging), and the three collaborators. -/
structure MonitoringStateMachine where
  state : MState
  prev_state : Option MState
  modem : Modem
  internet : InternetMonitor
  pi : RaspberryPi
deriving DecidableEq, Repr

/-- `MonitoringStateMachine.__init__`: initial state `MONITORING_MODEM`,
`_prev_state = None`. -/
def MonitoringStateMachine.init (m : Modem) (im : InternetMonitor) (p : RaspberryPi) :
    MonitoringStateMachine :=
  { state := MState.MONITORING_MODEM
    prev_state := none
    modem := m
    internet := im
    pi := p }

/-- Oracle inputs for one iteration of the `run` loop: the tick time and the
results the external probes would return this tick. -/
structure TickInput where
  now : Nat
  modem_alive : Bool
  curl_results : List Bool
deriving DecidableEq, Repr

/-- One iteration of the `while` body of `MonitoringStateMachine.run`
(executed while `state != HALT`; the `HALT` case is the loop exiting, a
no-op).  Returns the updated machine and the external actions performed. -/
def step (s : MonitoringStateMachine) (i : TickInput) : MonitoringStateMachine × List RelayAction :=
  let s1 := if s.prev_state ≠ some s.state then { s with prev_state := some s.state } else s
  match s.state with
  | MState.MONITORING_MODEM =>
    if s.modem.is_currently_booting i.now then (s1, [])
    else
      let r := s.modem.is_responsive i.now i.modem_alive
      if r.2 then ({ s1 with modem := r.1, state := MState.MONITORING_INTERNET }, [])
      else ({ s1 with modem := r.1 }, [])
  | MState.MONITORING_INTERNET =>
    let r := s.internet.is_up i.now i.curl_results
    if r.2 then ({ s1 with internet := r.1 }, [])
    else ({ s1 with internet := r.1, state := MState.REBOOT_MODEM }, [])
  | MState.REBOOT_MODEM =>
    let r := power_cycle_modem s.modem s.internet s.pi i.now
    ({ s1 with modem := r.1, internet := r.2.1, pi := r.2.2.1, state := MState.MONITORING_MODEM },
      r.2.2.2)
  | MState.HALT => (s1, [])

/-- Run the loop over a finite prefix of tick inputs. -/
def run (s : MonitoringStateMachine) : List TickInput → MonitoringStateMachine
  | [] => s
  | i :: rest => run (step s i).1 rest

/-- The times at which the power-cycle action fires along a run (the ticks
taken in state `REBOOT_MODEM`). -/
def fire_times (s : MonitoringStateMachine) : List TickInput → List Nat
  | [] => []
  | i :: rest =>
    (if s.state = MState.REBOOT_MODEM then [i.now] else []) ++ fire_times (step s i).1 rest

/-- A `ReachabilityRecord` with exactly one of `up_since` / `down_since` set. -/
def RecExactlyOne (u d : Option Nat) : Prop :=
  (u ≠ none ∧ d = none) ∨ (u = none ∧ d ≠ none)

/-- A `ReachabilityRecord` either before its first sample (both `None`) or
satisfying `RecExactlyOne`. -/
def RecOk (u d : Option Nat) : Prop :=
  (u = none ∧ d = none) ∨ RecExactlyOne u d

/-- Ticks with nondecreasing timestamps, all at or after `t`. -/
def times_nondecreasing (t : Nat) : List TickInput → Bool
  | [] => true
  | i :: rest => decide (t ≤ i.now) && times_nondecreasing i.now rest

/-- Consecutive elements of the list are at least `bd` apart. -/
def spaced_by (bd : Nat) : List Nat → Prop
  | [] => True
  | [_] => True
  | a :: b :: rest => a + bd ≤ b ∧ spaced_by bd (b :: rest)

/-- Clock invariant threaded through the run: the last reboot lies in the
past, and the states that can fire a power cycle are only reached once the
cooldown from the previous reboot has expired. -/
def ClockInv (s : MonitoringStateMachine) (t : Nat) : Prop :=
  s.modem.last_reboot ≤ t ∧
  ((s.state = MState.MONITORING_INTERNET ∨ s.state = MState.REBOOT_MODEM) →
    s.modem.last_reboot + s.modem.boot_duration ≤ t)

/-- Claim C5: the cooldown query `Modem.is_currently_booting` returns true iff
`now - last_reboot < boot_duration`; equivalently (for `now` not before
`last_reboot`) it is true exactly on the half-open interval
`[last_reboot, last_reboot + boot_duration)`. -/
theorem cooldown_contract (m : Modem) :
    (∀ now, m.is_currently_booting now = decide (now - m.last_reboot < m.boot_duration))
  ∧ ∀ now, m.last_reboot ≤ now →
      (m.is_currently_booting now = true ↔ now < m.last_reboot + m.boot_duration) := by
  refine ⟨fun now => rfl, fun now h => ?_⟩
  simp only [Modem.is_currently_booting, decide_eq_true_eq]
  omega

theorem cooldown_contract_witness :
    (Modem.init 5 120 100).is_currently_booting 150 = true ↔
      150 < (Modem.init 5 120 100).last_reboot + (Modem.init 5 120 100).boot_duration :=
  (cooldown_contract (Modem.init 5 120 100)).2 150 (by decide)

/-- Claim C3: the plain tracker `Modem.is_responsive` returns a verdict equal
to the current sample (so after any sequence of samples, `up_since` is set iff
the most recent sample was reachable), and a further good sample while already
up leaves `up_since` unchanged (it marks the start of the current up-streak). -/
theorem plain_tracker (m : Modem) (now : Nat) (alive : Bool) :
    ((m.is_responsive now alive).2 = alive
      ∧ (((m.is_responsive now alive).1.up_since ≠ none) ↔ alive = true))
  ∧ ∀ t, m.up_since = some t → alive = true →
      (m.is_responsive now alive).1.up_since = some t := by
  obtain ⟨po, bd, u, d, lr⟩ := m
  cases alive <;> cases u <;> simp [Modem.is_responsive]

theorem plain_tracker_witness :
    ((Modem.mk 5 120 (some 3) none 0).is_responsive 9 true).1.up_since = some 3 :=
  (plain_tracker (Modem.mk 5 120 (some 3) none 0) 9 true).2 3 rfl rfl

/-- Claim C2: `ReachabilityRecord` invariant for both trackers: at
construction both `up_since` and `down_since` are `None`, and every operation
(`Modem.is_responsive`, `Modem.notify_reboot`, `InternetMonitor.is_up`)
leaves exactly one of `up_since` / `down_since` non-`None`, given any state
reachable from construction (`RecOk`: both-`None` or exactly-one). -/
theorem record_invariant :
    (∀ p b n0, (Modem.init p b n0).up_since = none ∧ (Modem.init p b n0).down_since = none)
  ∧ (∀ a n0, (InternetMonitor.init a n0).up_since = none
      ∧ (InternetMonitor.init a n0).down_since = none)
  ∧ (∀ (m : Modem) now alive, RecOk m.up_since m.down_since →
      RecExactlyOne (m.is_responsive now alive).1.up_since (m.is_responsive now alive).1.down_since)
  ∧ (∀ (m : Modem) now,
      RecExactlyOne (m.notify_reboot now).up_since (m.notify_reboot now).down_since)
  ∧ (∀ (im : InternetMonitor) now rs, RecOk im.up_since im.down_since →
      RecExactlyOne (im.is_up now rs).1.up_since (im.is_up now rs).1.down_since) := by
  refine ⟨fun p b n0 => ⟨rfl, rfl⟩, fun a n0 => ⟨rfl, rfl⟩, ?_, ?_, ?_⟩
  · intro m now alive hok
    obtain ⟨po, bd, u, d, lr⟩ := m
    cases alive <;> cases u <;>
      simp_all [Modem.is_responsive, RecOk, RecExactlyOne]
  · intro m now
    simp [Modem.notify_reboot, RecExactlyOne]
  · intro im now rs hok
    obtain ⟨a, lc, u, d⟩ := im
    cases u <;>
      simp_all [InternetMonitor.is_up, RecOk, RecExactlyOne] <;>
      split_ifs <;> simp_all

theorem record_invariant_witness :
    RecExactlyOne ((Modem.init 5 120 0).is_responsive 1 true).1.up_since
        ((Modem.init 5 120 0).is_responsive 1 true).1.down_since
  ∧ RecExactlyOne ((InternetMonitor.init 60 0).is_up 1 [true]).1.up_since
        ((InternetMonitor.init 60 0).is_up 1 [true]).1.down_since :=
  ⟨record_invariant.2.2.1 (Modem.init 5 120 0) 1 true (Or.inl ⟨rfl, rfl⟩),
   record_invariant.2.2.2.2 (InternetMonitor.init 60 0) 1 [true] (Or.inl ⟨rfl, rfl⟩)⟩

/-- Claim C7: OR-across-hosts and immediate recovery: if at least one
configured host answers this tick, the sample is good, and if the tracker was
down (`up_since = None`) the verdict flips to up in that same call:
`up_since` set to now, `down_since` cleared, `last_curl` (last success)
updated to now. -/
theorem or_across_hosts (im : InternetMonitor) (now : Nat) (rs : List Bool)
    (hdown : im.up_since = none) (hgood : true ∈ rs) :
    (im.is_up now rs).2 = true
  ∧ (im.is_up now rs).1.up_since = some now
  ∧ (im.is_up now rs).1.down_since = none
  ∧ (im.is_up now rs).1.last_curl = now := by
  have hany : rs.any id = true := List.any_eq_true.mpr ⟨true, hgood, rfl⟩
  obtain ⟨a, lc, u, d⟩ := im
  simp_all [InternetMonitor.is_up]

theorem or_across_hosts_witness :
    ((InternetMonitor.init 60 0).is_up 5 [false, true]).2 = true
  ∧ ((InternetMonitor.init 60 0).is_up 5 [false, true]).1.up_since = some 5
  ∧ ((InternetMonitor.init 60 0).is_up 5 [false, true]).1.down_since = none
  ∧ ((InternetMonitor.init 60 0).is_up 5 [false, true]).1.last_curl = 5 :=
  or_across_hosts (InternetMonitor.init 60 0) 5 [false, true] rfl (by decide)

/-- Claim C9 (implicit): a bad sample taken while `up_since` is `None` but
within the grace window of `last_curl` sets `up_since` and returns the verdict
up; since a freshly constructed `InternetMonitor` has `up_since = None` and
`last_curl` equal to construction time, its very first call can report up even
though every configured host failed. -/
theorem first_call_up :
    (∀ a n0, (InternetMonitor.init a n0).up_since = none
      ∧ (InternetMonitor.init a n0).down_since = none
      ∧ (InternetMonitor.init a n0).last_curl = n0)
  ∧ (∀ (im : InternetMonitor) now rs, im.up_since = none → rs.any id = false →
      now - im.last_curl ≤ im.acceptable_no_comms_seconds →
      ((im.is_up now rs).2 = true ∧ (im.is_up now rs).1.up_since = some now)) := by
  refine ⟨fun a n0 => ⟨rfl, rfl, rfl⟩, ?_⟩
  intro im now rs hdown hbad hgrace
  obtain ⟨a, lc, u, d⟩ := im
  have hts : timedeltaSeconds (now - lc) ≤ a := le_trans (Nat.mod_le _ _) hgrace
  subst hdown
  simp [InternetMonitor.is_up, hbad, Nat.not_lt.mpr hts]

theorem first_call_up_witness :
    ((InternetMonitor.init 60 0).is_up 30 [false, false]).2 = true
  ∧ ((InternetMonitor.init 60 0).is_up 30 [false, false]).1.up_since = some 30 :=
  first_call_up.2 (InternetMonitor.init 60 0) 30 [false, false] rfl (by decide) (by decide)

/-- Claim C1, evaluated at the failing input (code bug): the source compares
`time_since_last_curl.seconds` — the seconds *component* of the Python
timedelta, which wraps every 86400 s — against `acceptable_no_comms_seconds`,
rather than the total elapsed time.  With `acceptable_no_comms_duration = 60`,
a good sample at t = 0 (so `last_curl = 0`, the tracker is up) followed by an
all-hosts-bad sample at t = 86430 — i.e. 86430 s > 60 s after the last
success — yields the verdict up with `up_since` untouched, where the claim
(and the evident intent of the grace window) says the target is judged down.
(For elapsed times under one day the claimed behaviour does hold.) -/
theorem grace_window_wraparound :
    ([false, false].any id = false)
  ∧ (((InternetMonitor.init 60 0).is_up 0 [true, true]).1.last_curl = 0
      ∧ ((InternetMonitor.init 60 0).is_up 0 [true, true]).1.up_since = some 0)
  ∧ 86430 - 0 > 60
  ∧ ((((InternetMonitor.init 60 0).is_up 0 [true, true]).1.is_up 86430 [false, false]).2 = true
      ∧ (((InternetMonitor.init 60 0).is_up 0 [true, true]).1.is_up 86430 [false, false]).1.up_since
          = some 0) := by
  decide

/-- Claim C4, evaluated at the failing input (code bug): a `REBOOT_MODEM`
tick does invoke `notify_reboot` on both trackers, engage the relay,
disengage it (ending power-restored) and move to `MONITORING_MODEM` — but it
does not block for `power_off_duration`: the source's `_sleep(dt)` calls
`time.sleep(dt.seconds)`, the seconds component of the timedelta, which wraps
every 86400 s.  With `power_off_duration = 86405` s (one day plus five
seconds — a *minimum* per the constructor argument name
`minimum_power_off_duration`), the power-cycle sleeps only 5 s. -/
theorem reboot_sleep_wraparound :
    (step ⟨MState.REBOOT_MODEM, none, Modem.init 86405 120 0, InternetMonitor.init 60 0,
        RaspberryPi.init⟩ ⟨7, true, []⟩).2
      = [RelayAction.relay_on, RelayAction.sleep 5, RelayAction.relay_off]
  ∧ (Modem.init 86405 120 0).power_off_duration = 86405
  ∧ (5 : Nat) < 86405
  ∧ (step ⟨MState.REBOOT_MODEM, none, Modem.init 86405 120 0, InternetMonitor.init 60 0,
        RaspberryPi.init⟩ ⟨7, true, []⟩).1.state = MState.MONITORING_MODEM
  ∧ (step ⟨MState.REBOOT_MODEM, none, Modem.init 86405 120 0, InternetMonitor.init 60 0,
        RaspberryPi.init⟩ ⟨7, true, []⟩).1.modem = (Modem.init 86405 120 0).notify_reboot 7
  ∧ (step ⟨MState.REBOOT_MODEM, none, Modem.init 86405 120 0, InternetMonitor.init 60 0,
        RaspberryPi.init⟩ ⟨7, true, []⟩).1.internet.last_curl = 7
  ∧ (step ⟨MState.REBOOT_MODEM, none, Modem.init 86405 120 0, InternetMonitor.init 60 0,
        RaspberryPi.init⟩ ⟨7, true, []⟩).1.pi.relay_output.value = false := by
  decide

/-- Claim C6: a tick taken in `MONITORING_MODEM` while the cooldown is active
leaves the machine state `MONITORING_MODEM`, mutates no tracker field and
performs no external action, and its result does not depend on the probe
oracles at all (same-time inputs with different probe results give the same
step) — no probe is issued and no verdict is computed. -/
theorem cooldown_suppression (s : MonitoringStateMachine) (i i' : TickInput)
    (h : s.state = MState.MONITORING_MODEM)
    (hb : s.modem.is_currently_booting i.now = true)
    (hn : i'.now = i.now) :
    (step s i).1.state = MState.MONITORING_MODEM
  ∧ (step s i).1.modem = s.modem
  ∧ (step s i).1.internet = s.internet
  ∧ (step s i).1.pi = s.pi
  ∧ (step s i).2 = []
  ∧ step s i' = step s i := by
  obtain ⟨st, prev, m, im, p⟩ := s
  simp only at h hb
  subst h
  simp only [step, hb, hn]
  split_ifs <;> simp

theorem cooldown_suppression_witness :
    (step ⟨MState.MONITORING_MODEM, none, Modem.init 5 120 0, InternetMonitor.init 60 0,
        RaspberryPi.init⟩ ⟨5, true, []⟩).1.state = MState.MONITORING_MODEM :=
  (cooldown_suppression ⟨MState.MONITORING_MODEM, none, Modem.init 5 120 0,
      InternetMonitor.init 60 0, RaspberryPi.init⟩ ⟨5, true, []⟩ ⟨5, false, [true]⟩
      rfl (by decide) rfl).1

theorem step_state_halt (s : MonitoringStateMachine) (i : TickInput)
    (h : (step s i).1.state = MState.HALT) : s.state = MState.HALT := by
  obtain ⟨st, prev, m, im, p⟩ := s
  cases st with
  | MONITORING_MODEM => simp only [step] at h; split_ifs at h
  | MONITORING_INTERNET => simp only [step] at h; split_ifs at h
  | REBOOT_MODEM => simp only [step] at h; simp_all
  | HALT => rfl

theorem run_state_ne_halt (l : List TickInput) :
    ∀ (s : MonitoringStateMachine), s.state ≠ MState.HALT → (run s l).state ≠ MState.HALT := by
  induction l with
  | nil => intro s hs; exact hs
  | cons i rest ih =>
    intro s hs
    exact ih (step s i).1 (fun hh => hs (step_state_halt s i hh))

/-- Claim C8: `HALT` is never assigned by the normal flow (a step ends in
`HALT` only if it started there), and from the initial state
`MONITORING_MODEM` no run ever reaches `HALT`; since the `run` loop's guard is
`state != HALT`, and the state (an `MState`) is always one of the four
enumerated states, the loop never terminates. -/
theorem halt_unreachable :
    (∀ (s : MonitoringStateMachine) (i : TickInput),
        (step s i).1.state = MState.HALT → s.state = MState.HALT)
  ∧ (∀ (m : Modem) (im : InternetMonitor) (p : RaspberryPi) (l : List TickInput),
        (run (MonitoringStateMachine.init m im p) l).state ≠ MState.HALT) :=
  ⟨step_state_halt, fun m im p l => run_state_ne_halt l _ (by simp [MonitoringStateMachine.init])⟩

theorem halt_unreachable_witness :
    (⟨MState.HALT, none, Modem.init 5 120 0, InternetMonitor.init 60 0,
        RaspberryPi.init⟩ : MonitoringStateMachine).state = MState.HALT :=
  halt_unreachable.1 ⟨MState.HALT, none, Modem.init 5 120 0, InternetMonitor.init 60 0,
      RaspberryPi.init⟩ ⟨0, true, []⟩ rfl

theorem is_responsive_boot_duration (m : Modem) (now : Nat) (alive : Bool) :
    (m.is_responsive now alive).1.boot_duration = m.boot_duration := by
  simp only [Modem.is_responsive]
  split_ifs <;> rfl

theorem is_responsive_last_reboot (m : Modem) (now : Nat) (alive : Bool) :
    (m.is_responsive now alive).1.last_reboot = m.last_reboot := by
  simp only [Modem.is_responsive]
  split_ifs <;> rfl

theorem step_boot_duration (s : MonitoringStateMachine) (i : TickInput) :
    (step s i).1.modem.boot_duration = s.modem.boot_duration := by
  obtain ⟨st, prev, m, im, p⟩ := s
  cases st <;>
    simp only [step, power_cycle_modem, Modem.notify_reboot] <;>
    split_ifs <;>
    simp [is_responsive_boot_duration]

theorem step_last_reboot (s : MonitoringStateMachine) (i : TickInput) :
    (step s i).1.modem.last_reboot =
      if s.state = MState.REBOOT_MODEM then i.now else s.modem.last_reboot := by
  obtain ⟨st, prev, m, im, p⟩ := s
  cases st <;>
    simp only [step, power_cycle_modem, Modem.notify_reboot] <;>
    split_ifs <;>
    simp_all [is_responsive_last_reboot]

theorem ClockInv_step (s : MonitoringStateMachine) (i : TickInput) (t : Nat)
    (h : ClockInv s t) (ht : t ≤ i.now) : ClockInv (step s i).1 i.now := by
  obtain ⟨hlr, hadv⟩ := h
  obtain ⟨st, prev, m, im, p⟩ := s
  cases st with
  | MONITORING_MODEM =>
    by_cases hboot : i.now - m.last_reboot < m.boot_duration
    · simp_all [step, ClockInv, Modem.is_currently_booting]
      omega
    · simp_all [step, ClockInv, Modem.is_currently_booting]
      split_ifs <;> simp_all [is_responsive_last_reboot, is_responsive_boot_duration] <;> omega
  | MONITORING_INTERNET =>
    have hbd : m.last_reboot + m.boot_duration ≤ t := hadv (Or.inl rfl)
    simp_all [step, ClockInv]
    split_ifs <;> simp_all <;> omega
  | REBOOT_MODEM =>
    simp_all [step, ClockInv, power_cycle_modem, Modem.notify_reboot]
  | HALT =>
    simp_all [step, ClockInv]
    omega

theorem fire_times_spec (l : List TickInput) :
    ∀ (s : MonitoringStateMachine) (t : Nat), ClockInv s t →
      times_nondecreasing t l = true →
      spaced_by s.modem.boot_duration (fire_times s l)
    ∧ ∀ x ∈ fire_times s l, s.modem.last_reboot + s.modem.boot_duration ≤ x := by
  induction l with
  | nil =>
    intro s t _ _
    exact ⟨trivial, by intro x hx; simp [fire_times] at hx⟩
  | cons i rest ih =>
    intro s t hI hm
    simp only [times_nondecreasing, Bool.and_eq_true, decide_eq_true_eq] at hm
    obtain ⟨hti, hm'⟩ := hm
    obtain ⟨hIlr, hIadv⟩ := hI
    have hI' : ClockInv (step s i).1 i.now := ClockInv_step s i t ⟨hIlr, hIadv⟩ hti
    obtain ⟨IH1, IH2⟩ := ih (step s i).1 i.now hI' hm'
    have hbd : (step s i).1.modem.boot_duration = s.modem.boot_duration := step_boot_duration s i
    have hlr : (step s i).1.modem.last_reboot =
        if s.state = MState.REBOOT_MODEM then i.now else s.modem.last_reboot :=
      step_last_reboot s i
    rw [hbd] at IH1
    rw [hlr, hbd] at IH2
    by_cases hs : s.state = MState.REBOOT_MODEM
    · rw [if_pos hs] at IH2
      have hft : fire_times s (i :: rest) = i.now :: fire_times (step s i).1 rest := by
        simp [fire_times, hs]
      rw [hft]
      have hadv : s.modem.last_reboot + s.modem.boot_duration ≤ t := hIadv (Or.inr hs)
      constructor
      · cases hfl : fire_times (step s i).1 rest with
        | nil => exact trivial
        | cons y ys =>
          rw [hfl] at IH1 IH2
          exact ⟨IH2 y (List.mem_cons_self y ys), IH1⟩
      · intro x hx
        rcases List.mem_cons.mp hx with hx1 | hx2
        · omega
        · have := IH2 x hx2
          omega
    · rw [if_neg hs] at IH2
      have hft : fire_times s (i :: rest) = fire_times (step s i).1 rest := by
        simp [fire_times, hs]
      rw [hft]
      exact ⟨IH1, IH2⟩

/-- Claim C10 (implicit): minimum reboot spacing.  Along any run from the
initial machine over ticks with nondecreasing timestamps, the times at which
the power-cycle action fires are separated pairwise by at least
`boot_duration`: the power cycle sets `last_reboot` to the current time, the
machine returns to `MONITORING_MODEM`, and it cannot advance toward
`REBOOT_MODEM` again until the cooldown has expired. -/
theorem reboot_spacing (m0 : Modem) (im0 : InternetMonitor) (p0 : RaspberryPi)
    (t0 : Nat) (l : List TickInput)
    (h0 : m0.last_reboot ≤ t0)
    (hm : times_nondecreasing t0 l = true) :
    spaced_by m0.boot_duration (fire_times (MonitoringStateMachine.init m0 im0 p0) l) :=
  (fire_times_spec l (MonitoringStateMachine.init m0 im0 p0) t0
    ⟨h0, by rintro (h | h) <;> simp [MonitoringStateMachine.init] at h⟩ hm).1

theorem reboot_spacing_witness :
    spaced_by (Modem.init 1 2 0).boot_duration
      (fire_times
        (MonitoringStateMachine.init (Modem.init 1 2 0) (InternetMonitor.init 0 0)
          RaspberryPi.init)
        [⟨2, true, [true]⟩, ⟨3, true, [false]⟩, ⟨4, true, [false]⟩, ⟨6, true, [false]⟩,
          ⟨7, true, [false]⟩, ⟨8, true, [false]⟩]) :=
  reboot_spacing (Modem.init 1 2 0) (InternetMonitor.init 0 0) RaspberryPi.init 0
    [⟨2, true, [true]⟩, ⟨3, true, [false]⟩, ⟨4, true, [false]⟩, ⟨6, true, [false]⟩,
      ⟨7, true, [false]⟩, ⟨8, true, [false]⟩]
    (by decide) (by decide)
